import Mathlib

/-!
Shallow embedding of the `instagram_insights` repository
(`instagram_giveaway.py`, `instagram_insights.py`, `instagram_setup.py`)
and verification of its specification claims.

Conventions of the embedding:
* Python strings are `String`, user ids are `Nat`, datetimes are `Int`
  (only their ordering matters), numeric dataframe cells are `ℚ`.
* A Python `set` built from a list is modelled as the deduplicated list
  (`pySet`); set intersection is membership filtering (`pyInter`).
  Membership and cardinality agree with the Python semantics; iteration
  order of a Python set is implementation defined, so any fixed order is a
  faithful model.
* Library calls that can raise are modelled with `Except String`;
  a Python function that can return `None` is modelled with `Option`.
-/

namespace InstagramInsights

/-! ## Data model for direct-message threads (instagram_giveaway.py) -/

/-- The `reel_share` annotation of a direct message: a dict with a
`type` field and a `mentioned_user_id` field. -/
structure ReelShare where
  type : String
  mentioned_user_id : Nat
deriving DecidableEq

/-- A user attached to a DM thread; only the `username` attribute is read. -/
structure ThreadUser where
  username : String
deriving DecidableEq

/-- A direct message: a timestamp and an optional `reel_share` annotation. -/
structure Message where
  timestamp : Int
  reel_share : Option ReelShare
deriving DecidableEq

/-- A DM thread: its associated users and its messages. -/
structure Thread where
  users : List ThreadUser
  messages : List Message
deriving DecidableEq

/-- The username of `t.users[0]`; only evaluated by the code after threads
with an empty user list have been filtered out, so the `[]` branch is
arbitrary. -/
def firstUsername (t : Thread) : String :=
  match t.users with
  | [] => ""
  | u :: _ => u.username

set_option linter.unusedVariables false in
/-- Body of the `for thread in relevant_threads` loop of `get_mentioners`
(instagram_giveaway.py lines 166-172): true iff the thread's candidate
username gets appended. `messages_after_post` is computed by the source but
never used afterwards (line 168 filters `messages`, not
`messages_after_post`), and the embedding reproduces that. -/
def thread_mentions (user_id : Nat) (start_time : Int) (thread : Thread) : Bool :=
  let messages := thread.messages
  let messages_after_post := messages.filter (fun m => decide (start_time < m.timestamp))
  let mentions_or_reactions := messages.filter (fun m => m.reel_share.isSome)
  let mentions := (mentions_or_reactions.filterMap (fun m => m.reel_share)).filter
    (fun rs => rs.type == "mention")
  let mentions_user := mentions.filter (fun rs => rs.mentioned_user_id == user_id)
  !mentions_user.isEmpty

/-- Embedding of `get_mentioners` (instagram_giveaway.py lines 117-177).
`threads` stands for the list returned by
`client.direct_threads(amount=thread_limit)`, `user_id` for
`client.user_id`. -/
def get_mentioners (user_id : Nat) (usernames : List String) (start_time : Int)
    (threads : List Thread) : List String :=
  let nonempty_user_threads := threads.filter (fun t => !t.users.isEmpty)
  let relevant_threads :=
    nonempty_user_threads.filter (fun t => usernames.contains (firstUsername t))
  relevant_threads.foldl
    (fun mentioner_usernames thread =>
      if thread_mentions user_id start_time thread then
        mentioner_usernames ++ [firstUsername thread]
      else mentioner_usernames)
    []

/-! ## Giveaway list construction (instagram_giveaway.py lines 180-209) -/

/-- Model of Python `set(l)` for a list of usernames: the list with
duplicates removed. Membership agrees with the Python set; Python's
iteration order over a set is implementation defined. -/
def pySet (l : List String) : List String := l.dedup

/-- Model of Python `s.intersection(t)` on username sets represented as
duplicate-free lists: the elements of `s` that are also in `t`. -/
def pyInter (s t : List String) : List String := s.filter (fun u => decide (u ∈ t))

/-- The set `followed_and_liked = set(followers).intersection(set(likers))`
of `create_giveaway_list` (line 199). -/
def gBase (followers likers : List String) : List String :=
  pyInter (pySet followers) (pySet likers)

/-- The set `commented = set(commenters).intersection(followed_and_liked)`
of `create_giveaway_list` (line 200). -/
def gCommented (followers likers commenters : List String) : List String :=
  pyInter (pySet commenters) (gBase followers likers)

/-- The set `mentioned = set(mentioners).intersection(followed_and_liked)`
of `create_giveaway_list` (line 201). -/
def gMentioned (followers likers mentioners : List String) : List String :=
  pyInter (pySet mentioners) (gBase followers likers)

/-- Embedding of `create_giveaway_list` (instagram_giveaway.py lines
180-209): `list(followed_and_liked) + list(commented) + list(mentioned)`. -/
def create_giveaway_list (followers likers commenters mentioners : List String) :
    List String :=
  let followed_and_liked := gBase followers likers
  let commented := gCommented followers likers commenters
  let mentioned := gMentioned followers likers mentioners
  followed_and_liked ++ commented ++ mentioned

/-- Model of Python 3's `random.choice(seq)`: raises
`IndexError('Cannot choose from an empty sequence')` on an empty sequence,
otherwise returns the element at the randomly drawn index. The draw
`self._randbelow(len(seq))` is modelled by an arbitrary `i : Nat` reduced
mod the length. -/
def random_choice (i : Nat) (seq : List String) : Except String String :=
  if h : seq = [] then .error "Cannot choose from an empty sequence"
  else .ok (seq.get ⟨i % seq.length, Nat.mod_lt _ (List.length_pos.mpr h)⟩)

/-- The winner-selection step of `main` (instagram_giveaway.py lines
226-230): `winner = random.choice(full_list)` applied to the list built by
`create_giveaway_list`. -/
def main_select_winner (i : Nat) (followers likers commenters mentioners : List String) :
    Except String String :=
  random_choice i (create_giveaway_list followers likers commenters mentioners)

/-! ## Commenter gathering (instagram_giveaway.py lines 69-95) -/

/-- A comment as returned by `client.media_comments`; only
`commenter.user.username` is read. -/
structure Comment where
  username : String
deriving DecidableEq

/-- Embedding of `get_post_commenters` (instagram_giveaway.py lines 69-95):
the usernames of the fetched comments, excluding comments whose author is
the account running the client (`client.username`). -/
def get_post_commenters (client_username : String) (commenters : List Comment) :
    List String :=
  (commenters.filter (fun c => c.username ≠ client_username)).map (fun c => c.username)

/-! ## Insights pipeline (instagram_insights.py) -/

/-- The metrics dict `insights["inline_insights_node"]["metrics"]` of a
post, when non-empty: reach, impressions, and the values of the
`share_count.tray.nodes` entries. -/
structure MetricsNode where
  reach_count : ℚ
  impression_count : ℚ
  share_values : List ℚ
deriving DecidableEq

/-- The insight payload returned by `client.insights_media(post.pk)`:
`metrics = none` models an empty metrics dict (posts made before the
account became a professional account). -/
structure MediaInsights where
  metrics : Option MetricsNode
  like_count : ℚ
  comment_count : ℚ
deriving DecidableEq

/-- One row of the per-post insights dataframe built by
`get_post_insights` (instagram_insights.py lines 145-152). -/
structure InsightsRow where
  reach : ℚ
  impressions : ℚ
  shares : ℚ
  likes : ℚ
  comments : ℚ
  total_engagement : ℚ
deriving DecidableEq

/-- Embedding of `get_post_insights` (instagram_insights.py lines 118-152):
`None` when the fetched metrics are empty, otherwise the one-row dataframe
with `total_engagement = likes + comments`. -/
def get_post_insights (insights : MediaInsights) : Option InsightsRow :=
  match insights.metrics with
  | none => none
  | some metrics =>
    some {
      reach := metrics.reach_count
      impressions := metrics.impression_count
      shares := metrics.share_values.sum
      likes := insights.like_count
      comments := insights.comment_count
      total_engagement := insights.like_count + insights.comment_count }

/-- Embedding of `calculate_aggregate_insights` (instagram_insights.py
lines 155-180): column-wise `insights.sum() / len(insights)`, then the
`comments` entry alone is rescaled by `1 - comment_pct`. -/
def calculate_aggregate_insights (insights : List InsightsRow) (comment_pct : ℚ) :
    InsightsRow :=
  let n : ℚ := insights.length
  let aggs : InsightsRow := {
    reach := (insights.map (fun r => r.reach)).sum / n
    impressions := (insights.map (fun r => r.impressions)).sum / n
    shares := (insights.map (fun r => r.shares)).sum / n
    likes := (insights.map (fun r => r.likes)).sum / n
    comments := (insights.map (fun r => r.comments)).sum / n
    total_engagement := (insights.map (fun r => r.total_engagement)).sum / n }
  { aggs with comments := aggs.comments * (1 - comment_pct) }

/-- Model of `pd.concat(objs)` on a list of optional one-row dataframes:
`None` entries are silently dropped; a `ValueError` is raised when the list
is empty or every entry is `None` (pandas' documented behaviour, caught by
`get_account_performance`). -/
def pd_concat (objs : List (Option InsightsRow)) : Except String (List InsightsRow) :=
  let dfs := objs.filterMap id
  if objs.isEmpty then .error "No objects to concatenate"
  else if dfs.isEmpty then .error "All objects passed were None"
  else .ok dfs

/-- The dict returned by `get_account_performance`; the `posts` entry (the
requested post count) is omitted as it is independent of the pipeline. -/
structure AccountPerformance where
  current_follower_count : ℚ
  engagement : ℚ
  per_post_reach : ℚ
  per_post_impressions : ℚ
  per_post_shares : ℚ
deriving DecidableEq

/-- The engagement computation of `get_account_performance`
(instagram_insights.py lines 224-227), with the `comment_pct` argument of
the `calculate_aggregate_insights` call kept as a parameter (the source
passes `0.4`): `aggregate_insights["total_engagement"] / follower_count`. -/
def account_engagement (insights_df : List InsightsRow) (comment_pct : ℚ)
    (follower_count : ℚ) : ℚ :=
  (calculate_aggregate_insights insights_df comment_pct).total_engagement / follower_count

/-- Embedding of `get_account_performance` (instagram_insights.py lines
183-236) after the login and fetch steps: `posts` stands for the insight
payloads of the fetched posts, `follower_count` for
`client.user_info_by_username(username).follower_count`. Returns `none`
when `pd.concat` raises (the `except ValueError` branch, lines 218-222). -/
def get_account_performance (posts : List MediaInsights) (follower_count : ℚ) :
    Option AccountPerformance :=
  let insights := posts.map get_post_insights
  match pd_concat insights with
  | .error _ => none
  | .ok insights_df =>
    let aggregate_insights := calculate_aggregate_insights insights_df (2/5)
    some {
      current_follower_count := follower_count
      engagement := aggregate_insights.total_engagement / follower_count
      per_post_reach := aggregate_insights.reach
      per_post_impressions := aggregate_insights.impressions
      per_post_shares := aggregate_insights.shares }

/-- Engagement formula as worded by the spec (§8): sum of likes plus
comments across posts with the comments contribution discounted by
`comment_pct`, divided by the number of posts, divided by the follower
count. Stated from the spec's words for comparison with
`account_engagement`. -/
def spec_engagement (insights_df : List InsightsRow) (comment_pct : ℚ)
    (follower_count : ℚ) : ℚ :=
  ((insights_df.map (fun r => r.likes)).sum
      + (insights_df.map (fun r => r.comments)).sum * (1 - comment_pct))
    / insights_df.length / follower_count

/-! ## Login helper (instagram_setup.py) -/

/-- Outcome of the `client.insights_account()` probe inside
`check_login_status`: success, an `AssertionError` with a message, or any
other exception. -/
inductive ApiOutcome where
  | ok : ApiOutcome
  | assertionError : String → ApiOutcome
  | otherError : String → ApiOutcome
deriving DecidableEq

/-- Truthiness of the Python value returned by `check_login_status`
(`True`, `False`, or an implicit `None`). -/
def truthy : Option Bool → Bool
  | some b => b
  | none => false

/-- Embedding of `check_login_status` (instagram_setup.py lines 22-43):
success returns `True`; an `AssertionError` whose message is
"Login required" returns `False`; an `AssertionError` with any other
message falls out of the `if` and the function returns `None`; any other
exception is not caught and propagates (`Except.error`). -/
def check_login_status (outcome : ApiOutcome) : Except String (Option Bool) :=
  match outcome with
  | .ok => .ok (some true)
  | .assertionError msg =>
    if msg = "Login required" then .ok (some false) else .ok none
  | .otherError e => .error e

/-- Control flow of `maybe_login` (instagram_setup.py lines 46-91) up to
the login decision: propagates whatever `check_login_status` raises, and
otherwise reports whether a fresh `client.login` is attempted, i.e. whether
`is_logged_in and not refresh_login` is false. -/
def maybe_login_attempts_login (outcome : ApiOutcome) (refresh_login : Bool) :
    Except String Bool :=
  match check_login_status outcome with
  | .error e => .error e
  | .ok is_logged_in => .ok (!(truthy is_logged_in && !refresh_login))

/-! ## Concrete inputs used by counterexamples and failing-input checks -/

/-- A thread from the candidate "alice" whose single message mentions user
id 7 but is timestamped before the cutoff used in `c1_stale_mention_returned`. -/
def c1_thread : Thread :=
  { users := [{ username := "alice" }],
    messages := [{ timestamp := 5, reel_share := some { type := "mention", mentioned_user_id := 7 } }] }

/-- Two posts with likes 1,1 and comments 2,4 and empty auxiliary metrics,
used to evaluate the engagement computation concretely. -/
def c2_posts : List MediaInsights :=
  [{ metrics := some { reach_count := 0, impression_count := 0, share_values := [] },
     like_count := 1, comment_count := 2 },
   { metrics := some { reach_count := 0, impression_count := 0, share_values := [] },
     like_count := 1, comment_count := 4 }]

/-- The insight dataframe rows produced from `c2_posts`. -/
def c2_df : List InsightsRow := c2_posts.filterMap get_post_insights

/-! ## Helper lemmas -/

theorem foldl_if_append {α β : Type} (c : α → Bool) (f : α → β) :
    ∀ (l : List α) (acc : List β),
      l.foldl (fun a t => if c t then a ++ [f t] else a) acc
        = acc ++ (l.filter c).map f := by
  intro l
  induction l with
  | nil => intro acc; simp
  | cons h t ih =>
    intro acc
    simp only [List.foldl_cons, List.filter_cons]
    cases hc : c h <;> simp [ih, hc]

theorem get_mentioners_eq (user_id : Nat) (usernames : List String)
    (start_time : Int) (threads : List Thread) :
    get_mentioners user_id usernames start_time threads
      = (((threads.filter (fun t => !t.users.isEmpty)).filter
            (fun t => usernames.contains (firstUsername t))).filter
            (fun t => thread_mentions user_id start_time t)).map firstUsername := by
  unfold get_mentioners
  rw [foldl_if_append (fun t => thread_mentions user_id start_time t) firstUsername]
  simp

theorem mem_get_mentioners (user_id : Nat) (usernames : List String)
    (start_time : Int) (threads : List Thread) (u : String) :
    u ∈ get_mentioners user_id usernames start_time threads ↔
      ∃ t ∈ threads, t.users ≠ [] ∧ firstUsername t = u ∧
        usernames.contains u = true ∧
        thread_mentions user_id start_time t = true := by
  rw [get_mentioners_eq]
  simp only [List.mem_map, List.mem_filter]
  constructor
  · rintro ⟨t, ⟨⟨⟨ht, hne⟩, hrel⟩, hmen⟩, hu⟩
    refine ⟨t, ht, ?_, hu, ?_, hmen⟩
    · intro habs
      simp [habs] at hne
    · rw [← hu]; exact hrel
  · rintro ⟨t, ht, hne, hu, hrel, hmen⟩
    refine ⟨t, ⟨⟨⟨ht, ?_⟩, ?_⟩, hmen⟩, hu⟩
    · simp [List.isEmpty_iff, hne]
    · rw [hu]; exact hrel

/-- The condition of the loop body holds iff the thread has a message whose
`reel_share` annotation has type "mention" and mentions `user_id`; the
cutoff `start_time` does not constrain it. -/
theorem thread_mentions_iff (user_id : Nat) (start_time : Int) (t : Thread) :
    thread_mentions user_id start_time t = true ↔
      ∃ m ∈ t.messages, ∃ rs : ReelShare, m.reel_share = some rs ∧
        rs.type = "mention" ∧ rs.mentioned_user_id = user_id := by
  unfold thread_mentions
  simp only [Bool.not_eq_true', List.isEmpty_eq_false_iff_exists_mem,
    List.mem_filter, List.mem_filterMap, beq_iff_eq]
  constructor
  · rintro ⟨rs, ⟨⟨m, ⟨hm, _⟩, hsome⟩, hty⟩, hid⟩
    exact ⟨m, hm, rs, hsome, hty, hid⟩
  · rintro ⟨m, hm, rs, hsome, hty, hid⟩
    exact ⟨rs, ⟨⟨m, ⟨hm, by simp [hsome]⟩, hsome⟩, hty⟩, hid⟩

theorem mem_pyInter (s t : List String) (u : String) :
    u ∈ pyInter s t ↔ u ∈ s ∧ u ∈ t := by
  simp [pyInter]

theorem mem_gBase (followers likers : List String) (u : String) :
    u ∈ gBase followers likers ↔ u ∈ followers ∧ u ∈ likers := by
  simp [gBase, mem_pyInter, pySet]

theorem mem_gCommented (followers likers commenters : List String) (u : String) :
    u ∈ gCommented followers likers commenters ↔
      u ∈ commenters ∧ (u ∈ followers ∧ u ∈ likers) := by
  simp [gCommented, mem_pyInter, pySet, mem_gBase]

theorem mem_gMentioned (followers likers mentioners : List String) (u : String) :
    u ∈ gMentioned followers likers mentioners ↔
      u ∈ mentioners ∧ (u ∈ followers ∧ u ∈ likers) := by
  simp [gMentioned, mem_pyInter, pySet, mem_gBase]

theorem nodup_pyInter (s t : List String) (h : s.Nodup) : (pyInter s t).Nodup :=
  List.Nodup.filter _ h

theorem nodup_gBase (followers likers : List String) : (gBase followers likers).Nodup :=
  nodup_pyInter _ _ (List.nodup_dedup followers)

theorem nodup_gCommented (followers likers commenters : List String) :
    (gCommented followers likers commenters).Nodup :=
  nodup_pyInter _ _ (List.nodup_dedup commenters)

theorem nodup_gMentioned (followers likers mentioners : List String) :
    (gMentioned followers likers mentioners).Nodup :=
  nodup_pyInter _ _ (List.nodup_dedup mentioners)

theorem toFinset_gBase (followers likers : List String) :
    (gBase followers likers).toFinset = followers.toFinset ∩ likers.toFinset := by
  ext u
  simp [mem_gBase]

theorem toFinset_gCommented (followers likers commenters : List String) :
    (gCommented followers likers commenters).toFinset =
      commenters.toFinset ∩ (followers.toFinset ∩ likers.toFinset) := by
  ext u
  simp [mem_gCommented, and_assoc]

theorem toFinset_gMentioned (followers likers mentioners : List String) :
    (gMentioned followers likers mentioners).toFinset =
      mentioners.toFinset ∩ (followers.toFinset ∩ likers.toFinset) := by
  ext u
  simp [mem_gMentioned, and_assoc]

theorem length_eq_card_toFinset (l : List String) (h : l.Nodup) :
    l.length = l.toFinset.card := by
  rw [List.toFinset_card_of_nodup h]

theorem count_of_nodup (l : List String) (h : l.Nodup) (u : String) :
    l.count u = if u ∈ l then 1 else 0 := by
  by_cases hm : u ∈ l
  · simp [hm, List.count_eq_one_of_mem h hm]
  · simp [hm, List.count_eq_zero_of_not_mem hm]

theorem get_mentioners_eq_single (user_id : Nat) (usernames : List String)
    (start_time : Int) (threads : List Thread) :
    get_mentioners user_id usernames start_time threads
      = (threads.filter (fun t =>
            (!t.users.isEmpty && usernames.contains (firstUsername t))
              && thread_mentions user_id start_time t)).map firstUsername := by
  rw [get_mentioners_eq, List.filter_filter, List.filter_filter]
  congr 1
  apply List.filter_congr
  intro t _
  cases h1 : (!t.users.isEmpty) <;> cases h2 : usernames.contains (firstUsername t) <;>
    cases h3 : thread_mentions user_id start_time t <;> simp [h1, h2, h3]

theorem filterMap_filter_isSome {α β : Type} (f : α → Option β) (l : List α) :
    (l.filter (fun a => (f a).isSome)).filterMap f = l.filterMap f := by
  induction l with
  | nil => rfl
  | cons h t ih =>
    cases hf : f h <;>
      simp [List.filter_cons, List.filterMap_cons, hf, ih]

theorem get_account_performance_closed (posts : List MediaInsights)
    (follower_count : ℚ) :
    get_account_performance posts follower_count
      = if posts.filterMap get_post_insights = [] then none
        else
          some {
            current_follower_count := follower_count
            engagement :=
              (calculate_aggregate_insights (posts.filterMap get_post_insights)
                (2/5)).total_engagement / follower_count
            per_post_reach :=
              (calculate_aggregate_insights (posts.filterMap get_post_insights)
                (2/5)).reach
            per_post_impressions :=
              (calculate_aggregate_insights (posts.filterMap get_post_insights)
                (2/5)).impressions
            per_post_shares :=
              (calculate_aggregate_insights (posts.filterMap get_post_insights)
                (2/5)).shares } := by
  have hmap : (posts.map get_post_insights).filterMap id
      = posts.filterMap get_post_insights := by
    induction posts with
    | nil => rfl
    | cons p rest ih => simp [List.filterMap_cons, ih]
  unfold get_account_performance pd_concat
  by_cases hdf : posts.filterMap get_post_insights = []
  · by_cases hp : posts = [] <;> simp [hmap, hdf, hp, List.isEmpty_iff]
  · have hp : posts ≠ [] := by
      intro habs
      rw [habs] at hdf
      exact hdf rfl
    simp [hmap, hdf, hp, List.isEmpty_iff]

/-! ## Claim C1 -/

/-- C1: the spec claims `get_mentioners` only counts mention messages whose
timestamp is strictly after the cutoff. The code computes
`messages_after_post` but then filters `reel_share` from `messages`
(line 168), so the cutoff is never applied: with cutoff 10, the candidate
"alice", whose only mention message is timestamped 5 (at or before the
cutoff, as the second conjunct checks), is still returned. -/
theorem c1_stale_mention_returned :
    get_mentioners 7 ["alice"] 10 [c1_thread] = ["alice"]
      ∧ (c1_thread.messages.all (fun m => decide (m.timestamp ≤ 10))) = true := by
  constructor
  · rfl
  · rfl

/-! ## Claim C3 -/

/-- C3: `create_giveaway_list` is the concatenation of `followed_and_liked`,
`commented` and `mentioned`; those sets satisfy
`base = followers ∩ likers`, `commented = commenters ∩ base`,
`mentioned = mentioners ∩ base`; the output length is exactly
`|base| + |commented| + |mentioned|`; and `commented` and `mentioned` are
subsets of `base`. -/
theorem c3_giveaway_list_structure (followers likers commenters mentioners : List String) :
    create_giveaway_list followers likers commenters mentioners
        = gBase followers likers ++ gCommented followers likers commenters
            ++ gMentioned followers likers mentioners
      ∧ (gBase followers likers).toFinset = followers.toFinset ∩ likers.toFinset
      ∧ (gCommented followers likers commenters).toFinset
          = commenters.toFinset ∩ (followers.toFinset ∩ likers.toFinset)
      ∧ (gMentioned followers likers mentioners).toFinset
          = mentioners.toFinset ∩ (followers.toFinset ∩ likers.toFinset)
      ∧ (create_giveaway_list followers likers commenters mentioners).length
          = (followers.toFinset ∩ likers.toFinset).card
            + (commenters.toFinset ∩ (followers.toFinset ∩ likers.toFinset)).card
            + (mentioners.toFinset ∩ (followers.toFinset ∩ likers.toFinset)).card
      ∧ (∀ u ∈ gCommented followers likers commenters, u ∈ gBase followers likers)
      ∧ (∀ u ∈ gMentioned followers likers mentioners, u ∈ gBase followers likers) := by
  refine ⟨rfl, toFinset_gBase followers likers,
    toFinset_gCommented followers likers commenters,
    toFinset_gMentioned followers likers mentioners, ?_, ?_, ?_⟩
  · rw [← toFinset_gCommented followers likers commenters,
      ← toFinset_gMentioned followers likers mentioners,
      ← toFinset_gBase followers likers,
      ← length_eq_card_toFinset _ (nodup_gBase followers likers),
      ← length_eq_card_toFinset _ (nodup_gCommented followers likers commenters),
      ← length_eq_card_toFinset _ (nodup_gMentioned followers likers mentioners)]
    simp [create_giveaway_list]
    omega
  · intro u hu
    rw [mem_gCommented] at hu
    rw [mem_gBase]
    exact hu.2
  · intro u hu
    rw [mem_gMentioned] at hu
    rw [mem_gBase]
    exact hu.2

/-- Witness for C3 on the spec's §8 example: followers {A,B,C},
likers {A,B}, commenters {A}, mentioners {B}; the commented-subset clause
puts A in the base set. -/
theorem c3_giveaway_list_structure_witness :
    "A" ∈ gBase ["A", "B", "C"] ["A", "B"] :=
  (c3_giveaway_list_structure ["A", "B", "C"] ["A", "B"] ["A"] ["B"]).2.2.2.2.2.1
    "A" (by decide)

/-! ## Claim C4 -/

/-- C4: with an empty likers list the entry list is empty, and the
winner-selection step `random.choice` then fails with an explicit
IndexError instead of returning any username; in general `random.choice`
on an empty entry list always raises that error. -/
theorem c4_empty_entries_fail (i : Nat) (followers commenters mentioners : List String) :
    create_giveaway_list followers [] commenters mentioners = []
      ∧ main_select_winner i followers [] commenters mentioners
          = .error "Cannot choose from an empty sequence"
      ∧ (∀ u : String, main_select_winner i followers [] commenters mentioners ≠ .ok u)
      ∧ (∀ entries : List String, entries = [] →
          random_choice i entries = .error "Cannot choose from an empty sequence") := by
  have hbase : gBase followers [] = [] := by
    simp [gBase, pyInter, pySet]
  have hempty : create_giveaway_list followers [] commenters mentioners = [] := by
    simp [create_giveaway_list, gCommented, gMentioned, pyInter, hbase]
  refine ⟨hempty, ?_, ?_, ?_⟩
  · rw [main_select_winner, hempty]
    simp [random_choice]
  · intro u habs
    rw [main_select_winner, hempty] at habs
    simp [random_choice] at habs
  · intro entries hentries
    rw [hentries]
    simp [random_choice]

/-- Witness for C4: the empty entry list makes `random.choice` raise. -/
theorem c4_empty_entries_fail_witness :
    random_choice 0 [] = .error "Cannot choose from an empty sequence" :=
  (c4_empty_entries_fail 0 ["a"] [] []).2.2.2 [] rfl

/-! ## Claim C5 -/

/-- C5: the multiplicity of any username in the giveaway list is additive:
one occurrence for follow+like, one more for also commenting, one more for
also mentioning, and never exceeds three. -/
theorem c5_entry_multiplicity (followers likers commenters mentioners : List String)
    (u : String) :
    (create_giveaway_list followers likers commenters mentioners).count u
        = ((if u ∈ followers ∧ u ∈ likers then 1 else 0)
            + (if u ∈ commenters ∧ (u ∈ followers ∧ u ∈ likers) then 1 else 0)
            + (if u ∈ mentioners ∧ (u ∈ followers ∧ u ∈ likers) then 1 else 0))
      ∧ (create_giveaway_list followers likers commenters mentioners).count u ≤ 3 := by
  have hcount : (create_giveaway_list followers likers commenters mentioners).count u
      = (gBase followers likers).count u
        + (gCommented followers likers commenters).count u
        + (gMentioned followers likers mentioners).count u := by
    simp [create_giveaway_list, List.count_append]
    omega
  have h1 : (gBase followers likers).count u
      = if u ∈ followers ∧ u ∈ likers then 1 else 0 := by
    rw [count_of_nodup _ (nodup_gBase followers likers)]
    simp [mem_gBase]
  have h2 : (gCommented followers likers commenters).count u
      = if u ∈ commenters ∧ (u ∈ followers ∧ u ∈ likers) then 1 else 0 := by
    rw [count_of_nodup _ (nodup_gCommented followers likers commenters)]
    simp [mem_gCommented]
  have h3 : (gMentioned followers likers mentioners).count u
      = if u ∈ mentioners ∧ (u ∈ followers ∧ u ∈ likers) then 1 else 0 := by
    rw [count_of_nodup _ (nodup_gMentioned followers likers mentioners)]
    simp [mem_gMentioned]
  refine ⟨by rw [hcount, h1, h2, h3], ?_⟩
  rw [hcount, h1, h2, h3]
  split <;> split <;> split <;> omega

/-! ## Claim C10 -/

/-- C10: the commenter list returned by `get_post_commenters` never
contains the username of the account running the client, and every
returned username comes from a fetched comment by a different author. -/
theorem c10_client_comments_excluded (client_username : String)
    (commenters : List Comment) :
    ((get_post_commenters client_username commenters).contains client_username = false)
      ∧ ∀ u ∈ get_post_commenters client_username commenters,
          ∃ c ∈ commenters, c.username = u ∧ u ≠ client_username := by
  constructor
  · simp only [List.contains, List.elem_eq_mem, decide_eq_false_iff_not]
    simp [get_post_commenters]
  · intro u hu
    simp only [get_post_commenters, List.mem_map, List.mem_filter] at hu
    obtain ⟨c, ⟨hc, hne⟩, hcu⟩ := hu
    refine ⟨c, hc, hcu, ?_⟩
    rw [← hcu]
    simpa using hne

/-- Witness for C10: the comment by "bob" survives the filter when the
client account is "me". -/
theorem c10_client_comments_excluded_witness :
    ∃ c ∈ [Comment.mk "bob"], c.username = "bob" ∧ "bob" ≠ "me" :=
  (c10_client_comments_excluded "me" [Comment.mk "bob"]).2 "bob" (by decide)

/-! ## Claim C6 -/

/-- C6: a thread with an empty user list is excluded from mention inference
regardless of its message content (prepending one never changes the
result); only the first user of a thread is ever treated as the candidate
identity (truncating every user list to its first element changes
nothing); and every returned username is the first user of some thread
with a non-empty user list. -/
theorem c6_userless_excluded_first_user_only (user_id : Nat) (usernames : List String)
    (start_time : Int) (threads : List Thread) :
    (∀ t : Thread, t.users = [] →
        get_mentioners user_id usernames start_time (t :: threads)
          = get_mentioners user_id usernames start_time threads)
      ∧ get_mentioners user_id usernames start_time
            (threads.map (fun t => { t with users := t.users.take 1 }))
          = get_mentioners user_id usernames start_time threads
      ∧ (∀ u ∈ get_mentioners user_id usernames start_time threads,
          ∃ t ∈ threads, t.users ≠ [] ∧ firstUsername t = u) := by
  have hie : ∀ t : Thread,
      ({ t with users := t.users.take 1 } : Thread).users.isEmpty = t.users.isEmpty := by
    intro t
    cases h : t.users <;> simp [h]
  have hfu : ∀ t : Thread,
      firstUsername { t with users := t.users.take 1 } = firstUsername t := by
    intro t
    cases h : t.users <;> simp [firstUsername, h]
  have htm : ∀ t : Thread,
      thread_mentions user_id start_time { t with users := t.users.take 1 }
        = thread_mentions user_id start_time t := fun _ => rfl
  refine ⟨?_, ?_, ?_⟩
  · intro t ht
    rw [get_mentioners_eq_single, get_mentioners_eq_single, List.filter_cons]
    simp [ht]
  · rw [get_mentioners_eq_single, get_mentioners_eq_single, List.filter_map,
      List.map_map]
    rw [List.filter_congr (fun t _ => by
      show ((!({ t with users := t.users.take 1 } : Thread).users.isEmpty
          && usernames.contains (firstUsername { t with users := t.users.take 1 }))
          && thread_mentions user_id start_time { t with users := t.users.take 1 })
        = _
      rw [hie t, hfu t, htm t])]
    exact List.map_congr_left (fun t _ => hfu t)
  · intro u hu
    rw [mem_get_mentioners] at hu
    obtain ⟨t, ht, hne, hname, _, _⟩ := hu
    exact ⟨t, ht, hne, hname⟩

/-- Witness for C6: a userless thread containing a qualifying mention
message is dropped. -/
theorem c6_userless_excluded_first_user_only_witness :
    get_mentioners 1 ["a"] 0
        [{ users := [],
           messages := [{ timestamp := 5,
                          reel_share := some { type := "mention", mentioned_user_id := 1 } }] }]
      = get_mentioners 1 ["a"] 0 [] :=
  (c6_userless_excluded_first_user_only 1 ["a"] 0 []).1
    { users := [],
      messages := [{ timestamp := 5,
                     reel_share := some { type := "mention", mentioned_user_id := 1 } }] }
    rfl

/-! ## Claim C7 -/

/-- C7: a message whose `reel_share` annotation has a type other than
"mention" never contributes: if every annotated message of a thread has a
non-"mention" type (even with a matching `mentioned_user_id`), the loop
condition is false for that thread, and deleting the thread from the
scanned list does not change the result of `get_mentioners`. -/
theorem c7_nonmention_never_contributes (user_id : Nat) (usernames : List String)
    (start_time : Int) (t : Thread) (pre post : List Thread)
    (h : ∀ m ∈ t.messages, ∀ rs : ReelShare, m.reel_share = some rs →
      rs.type ≠ "mention") :
    thread_mentions user_id start_time t = false
      ∧ get_mentioners user_id usernames start_time (pre ++ t :: post)
          = get_mentioners user_id usernames start_time (pre ++ post) := by
  have hf : thread_mentions user_id start_time t = false := by
    rw [Bool.eq_false_iff, Ne, thread_mentions_iff]
    rintro ⟨m, hm, rs, hrs, hty, _⟩
    exact h m hm rs hrs hty
  refine ⟨hf, ?_⟩
  rw [get_mentioners_eq_single, get_mentioners_eq_single, List.filter_append,
    List.filter_append, List.filter_cons]
  simp [hf]

/-- Witness for C7: a thread whose only annotated message has type
"reaction" and a matching mentioned user id fails the loop condition. -/
theorem c7_nonmention_never_contributes_witness :
    thread_mentions 7 0
        { users := [{ username := "w" }],
          messages := [{ timestamp := 5,
                         reel_share := some { type := "reaction", mentioned_user_id := 7 } }] }
      = false :=
  (c7_nonmention_never_contributes 7 ["w"] 0
    { users := [{ username := "w" }],
      messages := [{ timestamp := 5,
                     reel_share := some { type := "reaction", mentioned_user_id := 7 } }] }
    [] []
    (by
      intro m hm rs hrs
      simp only [List.mem_singleton] at hm
      subst hm
      have h2 := Option.some.inj hrs
      rw [← h2]
      decide)).1

/-! ## Claim C2 -/

/-- C2: the spec claims the engagement value discounts the comments
contribution by `1 - comment_pct`. On the two-post dataset `c2_posts`
(likes 1,1, comments 2,4, follower count 1) the code computes
`(3 + 5) / 2 / 1 = 4`, whereas the spec's formula with the code's
`comment_pct = 2/5` gives `(2 + 6 * (3/5)) / 2 / 1 = 14/5`: the discount
never reaches `total_engagement`. -/
theorem c2_engagement_discount_counterexample :
    c2_df = [{ reach := 0, impressions := 0, shares := 0, likes := 1,
               comments := 2, total_engagement := 3 },
             { reach := 0, impressions := 0, shares := 0, likes := 1,
               comments := 4, total_engagement := 5 }]
      ∧ (get_account_performance c2_posts 1).map (fun r => r.engagement) = some 4
      ∧ account_engagement c2_df (2/5) 1 = 4
      ∧ spec_engagement c2_df (2/5) 1 = 14/5
      ∧ account_engagement c2_df (2/5) 1 ≠ spec_engagement c2_df (2/5) 1 := by
  have hdf : c2_df = ([{ reach := 0, impressions := 0, shares := 0, likes := 1,
                         comments := 2, total_engagement := 3 },
                       { reach := 0, impressions := 0, shares := 0, likes := 1,
                         comments := 4, total_engagement := 5 }] : List InsightsRow) := by
    simp only [c2_df, c2_posts, get_post_insights, List.filterMap_cons,
      List.filterMap_nil]
    norm_num
  have hacc : account_engagement c2_df (2/5) 1 = 4 := by
    rw [hdf]
    simp only [account_engagement, calculate_aggregate_insights, List.map_cons,
      List.map_nil, List.sum_cons, List.sum_nil, List.length_cons, List.length_nil]
    norm_num
  have hspec : spec_engagement c2_df (2/5) 1 = 14/5 := by
    rw [hdf]
    simp only [spec_engagement, List.map_cons, List.map_nil, List.sum_cons,
      List.sum_nil, List.length_cons, List.length_nil]
    norm_num
  refine ⟨hdf, ?_, hacc, hspec, ?_⟩
  · rw [get_account_performance_closed]
    have hne : c2_posts.filterMap get_post_insights ≠ [] := by
      rw [show c2_posts.filterMap get_post_insights = c2_df from rfl, hdf]
      simp
    rw [if_neg hne, Option.map_some']
    have : (calculate_aggregate_insights (c2_posts.filterMap get_post_insights)
        (2/5)).total_engagement / 1
        = account_engagement c2_df (2/5) 1 := rfl
    rw [this, hacc]
  · rw [hacc, hspec]
    norm_num

/-- C2 amended: the engagement value is the undiscounted per-post average
of `likes + comments` divided by the follower count; `comment_pct` rescales
only the aggregate `comments` column, and every dataframe row built by
`get_post_insights` has `total_engagement = likes + comments`. -/
theorem c2_engagement_undiscounted (insights_df : List InsightsRow)
    (comment_pct follower_count : ℚ) (mi : MediaInsights) (row : InsightsRow)
    (h : get_post_insights mi = some row) :
    account_engagement insights_df comment_pct follower_count
        = (insights_df.map (fun r => r.total_engagement)).sum
            / insights_df.length / follower_count
      ∧ row.total_engagement = row.likes + row.comments
      ∧ (calculate_aggregate_insights insights_df comment_pct).comments
          = (insights_df.map (fun r => r.comments)).sum / insights_df.length
              * (1 - comment_pct) := by
  refine ⟨rfl, ?_, rfl⟩
  unfold get_post_insights at h
  cases hmi : mi.metrics with
  | none => rw [hmi] at h; cases h
  | some metrics =>
    rw [hmi] at h
    have h2 := Option.some.inj h
    rw [← h2]

/-- Witness for C2 amended: the dataframe row of a post with 0 likes and
2 comments has `total_engagement = 0 + 2`. -/
theorem c2_engagement_undiscounted_witness :
    ({ reach := 0, impressions := 0, shares := 0, likes := 0, comments := 2,
       total_engagement := 2 } : InsightsRow).total_engagement
      = ({ reach := 0, impressions := 0, shares := 0, likes := 0, comments := 2,
           total_engagement := 2 } : InsightsRow).likes
        + ({ reach := 0, impressions := 0, shares := 0, likes := 0, comments := 2,
             total_engagement := 2 } : InsightsRow).comments :=
  (c2_engagement_undiscounted [] 0 1
    { metrics := some { reach_count := 0, impression_count := 0, share_values := [] },
      like_count := 0, comment_count := 2 }
    { reach := 0, impressions := 0, shares := 0, likes := 0, comments := 2,
      total_engagement := 2 }
    (by simp [get_post_insights])).2.1

/-! ## Claim C8 -/

/-- C8: the claim states that any failure other than the "Login required"
signal propagates out of the login check. An `AssertionError` with message
"boom" is caught by the `except AssertionError` clause, falls through the
`if`, makes `check_login_status` return `None`, and leads `maybe_login` to
attempt a fresh login instead of propagating. -/
theorem c8_other_assertion_swallowed :
    check_login_status (ApiOutcome.assertionError "boom") = .ok none
      ∧ maybe_login_attempts_login (ApiOutcome.assertionError "boom") false
          = .ok true := by
  constructor
  · simp [check_login_status]
  · simp [maybe_login_attempts_login, check_login_status, truthy]

/-- C8 amended: the "Login required" `AssertionError` yields `False` and
any other `AssertionError` yields `None`; both are falsy, so either way
`maybe_login` attempts a fresh login; only non-`AssertionError` failures
propagate, and a successful check skips the login unless a refresh is
forced. -/
theorem c8_login_required_and_propagation (msg : String) (refresh_login : Bool)
    (e : String) (h : msg ≠ "Login required") :
    check_login_status ApiOutcome.ok = .ok (some true)
      ∧ check_login_status (ApiOutcome.assertionError "Login required")
          = .ok (some false)
      ∧ check_login_status (ApiOutcome.assertionError msg) = .ok none
      ∧ maybe_login_attempts_login (ApiOutcome.assertionError msg) refresh_login
          = .ok true
      ∧ check_login_status (ApiOutcome.otherError e) = .error e
      ∧ maybe_login_attempts_login (ApiOutcome.otherError e) refresh_login
          = .error e
      ∧ maybe_login_attempts_login ApiOutcome.ok refresh_login = .ok refresh_login := by
  refine ⟨rfl, by simp [check_login_status], ?_, ?_, rfl, rfl, ?_⟩
  · simp [check_login_status, h]
  · simp [maybe_login_attempts_login, check_login_status, h, truthy]
  · simp [maybe_login_attempts_login, check_login_status, truthy]

/-- Witness for C8 amended: a non-assertion failure "io" propagates. -/
theorem c8_login_required_and_propagation_witness :
    maybe_login_attempts_login (ApiOutcome.otherError "io") false = .error "io" :=
  (c8_login_required_and_propagation "boom" false "io" (by decide)).2.2.2.2.2.1

/-! ## Claim C9 -/

/-- C9: a post whose fetched metrics are empty yields a null insight
result; null results are excluded from the aggregation (filtering them out
of the post list leaves `get_account_performance` unchanged, so they enter
neither the sums nor the averaging count); and when every post is null the
function returns no result. -/
theorem c9_null_insights_excluded (mi : MediaInsights) (posts : List MediaInsights)
    (follower_count : ℚ) (hmetrics : mi.metrics = none) :
    get_post_insights mi = none
      ∧ get_account_performance posts follower_count
          = get_account_performance
              (posts.filter (fun p => (get_post_insights p).isSome)) follower_count
      ∧ ((∀ p ∈ posts, get_post_insights p = none) →
          get_account_performance posts follower_count = none) := by
  refine ⟨?_, ?_, ?_⟩
  · unfold get_post_insights
    rw [hmetrics]
  · rw [get_account_performance_closed, get_account_performance_closed,
      filterMap_filter_isSome]
  · intro hall
    rw [get_account_performance_closed]
    have hnil : posts.filterMap get_post_insights = [] := by
      rw [List.filterMap_eq_nil_iff]
      exact hall
    simp [hnil]

/-- Witness for C9: a single post with empty metrics makes the whole
aggregation return no result. -/
theorem c9_null_insights_excluded_witness :
    get_account_performance [{ metrics := none, like_count := 0, comment_count := 0 }] 1
      = none :=
  (c9_null_insights_excluded { metrics := none, like_count := 0, comment_count := 0 }
    [{ metrics := none, like_count := 0, comment_count := 0 }] 1 rfl).2.2
    (by
      intro p hp
      simp only [List.mem_singleton] at hp
      subst hp
      rfl)

end InstagramInsights
